import Mathlib

/-!
Verification of the cluster-wide GPU configuration analyzer
(`task1/scripts/cluster_wide_gpu_debug.py`).

The Python script is shallowly embedded: its dataclasses become structures,
its pure text processing becomes functions over `List Char` / `String`, and
its subprocess / cluster-API effects become explicit parameters (the outcome
a call would have produced is passed in, and the function combines outcomes
exactly as the source does).
-/

/-! ## Data model (the three dataclasses of the script) -/

-- dataclass NodeInfo
structure NodeInfo where
  name : String
  roles : List String
  status : String
  gpu_pods : Nat
  has_gpu_resources : Bool
deriving DecidableEq, Repr

-- dataclass ContainerdConfig (field defaults as in the source)
structure ContainerdConfig where
  node_name : String
  config_path : String
  «exists» : Bool
  nvidia_runtime_configured : Bool
  config_content : String
  binary_name : String := ""
  binary_exists : Bool := false
  binary_path_used : String := ""
  error : Option String := none
deriving DecidableEq, Repr

-- dataclass NodeGPUStatus (field defaults as in the source)
structure NodeGPUStatus where
  node_name : String
  containerd_configs : List ContainerdConfig
  gpu_failure_symptoms : Option String := none
  debug_pod_deployed : Bool := false
  execution_error : Option String := none
deriving DecidableEq, Repr

/-! ## Python string primitives used by the script -/

-- Python `needle in hay` (contiguous substring test)
def pyIn (needle hay : List Char) : Bool := decide (needle <:+: hay)

-- Python `str.lower()` (ASCII case folding, which is all the script relies on)
def pyLower (l : List Char) : List Char := l.map Char.toLower

-- Python `str.split(sep)` for a one-character separator (keeps empty pieces)
def splitOnChar (sep : Char) : List Char → List (List Char)
  | [] => [[]]
  | c :: rest =>
    if c = sep then [] :: splitOnChar sep rest
    else
      match splitOnChar sep rest with
      | [] => [[c]]
      | grp :: grps => (c :: grp) :: grps

-- Python `str.split(sep, 1)`: at most one split, at the first occurrence
def pySplitOnce (sep : Char) (l : List Char) : List (List Char) :=
  let pre := l.takeWhile (fun c => c != sep)
  let rest := l.dropWhile (fun c => c != sep)
  match rest with
  | [] => [l]
  | _ :: post => [pre, post]

-- strip characters satisfying `p` from both ends of a list
def stripBoth (p : Char → Bool) (l : List Char) : List Char :=
  ((l.dropWhile p).reverse.dropWhile p).reverse

-- Python whitespace set used by `str.strip()`
def pyIsSpaceChar (c : Char) : Bool :=
  c = ' ' || c = Char.ofNat 9 || c = Char.ofNat 10 ||
  c = Char.ofNat 13 || c = Char.ofNat 11 || c = Char.ofNat 12

-- the source's `.strip().strip('"').strip("'").strip()` chain
def stripValue (l : List Char) : List Char :=
  stripBoth pyIsSpaceChar
    (stripBoth (fun c => c = Char.ofNat 39)
      (stripBoth (fun c => c = Char.ofNat 34)
        (stripBoth pyIsSpaceChar l)))

-- Python `s[-k:]` (the whole string when it is shorter than k)
def pyTakeLast (k : Nat) (s : String) : String :=
  String.mk (s.data.drop (s.data.length - k))

/-! ## Config Inspector

`get_containerd_config_from_node` (remote path, lines 675-681) lowercases the
fetched content before the marker test; `check_local_node_config` (local path,
line 372) tests the raw content.
-/

-- remote path: `content_lower = content.lower(); 'nvidia' in content_lower and 'runc' in content_lower`
def nvidia_runtime_configured_remote (config_content : String) : Bool :=
  let content_lower := pyLower config_content.data
  pyIn "nvidia".data content_lower && pyIn "runc".data content_lower

-- local path: `'nvidia' in config_content and 'runc' in config_content`
def nvidia_configured_local (config_content : String) : Bool :=
  pyIn "nvidia".data config_content.data && pyIn "runc".data config_content.data

-- the line filter of `_extract_and_verify_binary`: `'BinaryName' in line and '=' in line`
def binaryNameLineMatch (line : List Char) : Bool :=
  pyIn "BinaryName".data line && pyIn "=".data line

-- the scanning loop of `_extract_and_verify_binary` (break on the first match;
-- `line.split('=', 1)` always has two parts when `'=' in line`, mirrored faithfully)
def extractLoop : List (List Char) → String
  | [] => ""
  | line :: rest =>
    if binaryNameLineMatch line then
      let parts := pySplitOnce '=' line
      if parts.length = 2 then String.mk (stripValue (parts.getD 1 []))
      else extractLoop rest
    else extractLoop rest

-- `_extract_and_verify_binary`'s binary_name result ('' when no line matches)
def extract_binary_name (config_content : String) : String :=
  extractLoop (splitOnChar (Char.ofNat 10) config_content.data)

/-! ## Derived pod identity and pod spec -/

-- `f"{self.debug_pod_prefix}-{node_name.replace('.', '-')}"` with the prefix
-- field set to "gpu-debug" in `__init__`
def debugPodName (node_name : String) : String :=
  "gpu-debug" ++ "-" ++ String.mk (node_name.data.map (fun c => if c = '.' then '-' else c))

-- the fields of the dict returned by `create_debug_pod_spec` that the claims
-- depend on (name, namespace, labels, node pinning, host namespaces, privilege)
structure DebugPodSpec where
  metadata_name : String
  metadata_namespace : String
  label_app : String
  label_node : String
  spec_nodeName : String
  hostNetwork : Bool
  hostPID : Bool
  hostIPC : Bool
  privileged : Bool
deriving DecidableEq, Repr

def create_debug_pod_spec (namespc node_name : String) : DebugPodSpec :=
  { metadata_name := debugPodName node_name
    metadata_namespace := namespc
    label_app := "gpu-cluster-debug"
    label_node := node_name
    spec_nodeName := node_name
    hostNetwork := true
    hostPID := true
    hostIPC := true
    privileged := true }

/-! ## deploy_debug_pod

The kubectl effects are passed in: whether `kubectl get pod` finds an existing
pod, whether `kubectl apply` succeeds, the readiness predicate sampled by the
poll loop (attempt index ↦ phase Running and container ready), and the
`kubectl describe` text fetched on timeout.
-/

structure DeployEnv where
  podExists : Bool
  createOk : Bool
  createErr : String
  ready : Nat → Bool
  describeOut : String

-- the poll loop `for attempt in range(timeout): check; time.sleep(1)`;
-- returns (success attempt index if any, seconds slept)
def deployWaitAux (ready : Nat → Bool) : Nat → Nat → Nat → Option Nat × Nat
  | 0, _, elapsed => (none, elapsed)
  | fuel + 1, attempt, elapsed =>
    if ready attempt then (some attempt, elapsed)
    else deployWaitAux ready fuel (attempt + 1) (elapsed + 1)

def deployWait (ready : Nat → Bool) (timeout : Nat) : Option Nat × Nat :=
  deployWaitAux ready timeout 0 0

-- `f"Pod failed to start within timeout. Details: {result.stdout[-500:]}"`
def waitFailMsg (describeOut : String) : String :=
  "Pod failed to start within timeout. Details: " ++ pyTakeLast 500 describeOut

-- returns ((success, pod-name-or-error), whether `kubectl apply` was invoked)
def deploy_debug_pod (env : DeployEnv) (node_name : String) : (Bool × String) × Bool :=
  let pod_name := debugPodName node_name
  if env.podExists then ((true, pod_name), false)
  else if env.createOk = false then ((false, "Failed to create pod: " ++ env.createErr), true)
  else
    match deployWait env.ready 60 with
    | (some _, _) => ((true, pod_name), true)
    | (none, _) => ((false, waitFailMsg env.describeOut), true)

/-! ## cleanup_debug_pods

Each `kubectl delete --ignore-not-found` call is represented by the outcome
`delete` would produce for that pod name; the source wraps the call in
`try/except: pass`, so the outcome is discarded and iteration continues.
The returned list records the pod identities for which deletion was invoked.
-/

inductive DeleteResult where
  | ok : DeleteResult
  | notFound : DeleteResult
  | err : String → DeleteResult
deriving DecidableEq, Repr

def cleanup_debug_pods (delete : String → DeleteResult) : List NodeInfo → List String
  | [] => []
  | node :: rest =>
    let pod_name := debugPodName node.name
    let _ := delete pod_name
    pod_name :: cleanup_debug_pods delete rest

/-! ## analyze_single_node

The two effectful sub-calls are passed as their outcomes: `deployResult` is
what `deploy_debug_pod` returned, and `stepsResult` is either the pair
(containerd configs, gpu symptoms text) produced by steps 2-3 or the exception
message the `except` arm would catch.
-/

def analyze_single_node (node : NodeInfo) (deployResult : Bool × String)
    (stepsResult : Except String (List ContainerdConfig × String)) : NodeGPUStatus :=
  if deployResult.1 = false then
    { node_name := node.name
      containerd_configs := []
      debug_pod_deployed := false
      execution_error := some deployResult.2 }
  else
    match stepsResult with
    | Except.ok steps =>
      { node_name := node.name
        containerd_configs := steps.1
        gpu_failure_symptoms := some steps.2
        debug_pod_deployed := true }
    | Except.error e =>
      { node_name := node.name
        containerd_configs := []
        debug_pod_deployed := true
        execution_error := some ("Analysis failed: " ++ e) }

/-! ## Orchestrator (analyze_cluster)

`worker` is the per-node future's outcome: `Except.error` when
`future.result(timeout=120)` raises (worker crash or collection timeout).
`order` is the completion order in which `as_completed` yields the futures —
any permutation of the discovered nodes. `poolAbort` is an exception escaping
the pool block itself (for example caller cancellation); the `finally` clause
runs the sweep in that case too.
-/

-- the NodeGPUStatus recorded in the except arm of the collection loop
def errorOutcome (name msg : String) : NodeGPUStatus :=
  { node_name := name
    containerd_configs := []
    execution_error := some ("Analysis exception: " ++ msg) }

def collectOutcome (worker : NodeInfo → Except String NodeGPUStatus)
    (node : NodeInfo) : NodeGPUStatus :=
  match worker node with
  | Except.ok r => r
  | Except.error e => errorOutcome node.name e

-- Python dict assignment `results[key] = val` on an insertion-ordered dict
def dictInsert (key : String) (val : NodeGPUStatus) :
    List (String × NodeGPUStatus) → List (String × NodeGPUStatus)
  | [] => [(key, val)]
  | (k, v) :: rest =>
    if k = key then (key, val) :: rest else (k, v) :: dictInsert key val rest

-- the collection loop: `results[node.name] = <outcome of the future>`
def collectResults (worker : NodeInfo → Except String NodeGPUStatus)
    (order : List NodeInfo) : List (String × NodeGPUStatus) :=
  order.foldl (fun results node => dictInsert node.name (collectOutcome worker node) results) []

-- `get_cluster_nodes`: the kubectl listing/parsing outcome is passed in; the
-- `except` arm prints the error and returns [] (lines 467-469)
def get_cluster_nodes (listResult : Except String (List NodeInfo)) : List NodeInfo :=
  match listResult with
  | Except.ok nodes => nodes
  | Except.error _ => []

-- `analyze_cluster(cleanup)`: early return {} on an empty node list; otherwise
-- run the pool inside try/finally, sweeping when the cleanup flag is set.
-- Result: (mapping or escaped exception, pod names swept by the finally clause)
def analyze_cluster (delete : String → DeleteResult) (cleanupFlag : Bool)
    (nodes : List NodeInfo) (worker : NodeInfo → Except String NodeGPUStatus)
    (order : List NodeInfo) (poolAbort : Option String) :
    Except String (List (String × NodeGPUStatus)) × List String :=
  if nodes.isEmpty then (Except.ok [], [])
  else
    let body : Except String (List (String × NodeGPUStatus)) :=
      match poolAbort with
      | some e => Except.error e
      | none => Except.ok (collectResults worker order)
    let swept := if cleanupFlag then cleanup_debug_pods delete nodes else []
    (body, swept)

/-! ## Cluster-Level Status Aggregator (get_runtime_config_issues) -/

def unconfiguredMsg (node_name : String) : String :=
  "Node " ++ node_name ++ ": NVIDIA runtime not configured in containerd config"

def missingBinaryMsg (node_name binary : String) : String :=
  "Node " ++ node_name ++ ": NVIDIA runtime binary not found at " ++ binary

-- the inner missing-binary test: `config.nvidia_runtime_configured and
-- config.binary_name and not config.binary_exists` (truthiness of a string
-- is non-emptiness)
def missingBinaryIssue? (node_name : String) (config : ContainerdConfig) : Option String :=
  if config.nvidia_runtime_configured && config.binary_name != "" && config.binary_exists = false
  then some (missingBinaryMsg node_name config.binary_name)
  else none

-- one iteration of the `for node_name, result in results.items()` loop
def issueStep (issues : List String) (entry : String × NodeGPUStatus) : List String :=
  let node_name := entry.1
  let result := entry.2
  if result.execution_error.isSome then issues
  else
    let has_nvidia_runtime :=
      (result.containerd_configs.filter (fun c => c.«exists»)).any
        (fun c => c.nvidia_runtime_configured)
    let issues1 :=
      if has_nvidia_runtime = false then issues ++ [unconfiguredMsg node_name] else issues
    issues1 ++ result.containerd_configs.filterMap (missingBinaryIssue? node_name)

-- `get_runtime_config_issues(results)`: one pass over the result mapping in
-- iteration order, appending issues as the source loop does
def get_runtime_config_issues (results : List (String × NodeGPUStatus)) : List String :=
  results.foldl issueStep []

-- direct per-node characterization of the same loop body (used to state what
-- the aggregate list actually is)
def nodeIssues (node_name : String) (result : NodeGPUStatus) : List String :=
  if result.execution_error.isSome then []
  else
    (if (result.containerd_configs.filter (fun c => c.«exists»)).any
        (fun c => c.nvidia_runtime_configured)
     then [] else [unconfiguredMsg node_name]) ++
    result.containerd_configs.filterMap (missingBinaryIssue? node_name)

/-! ## Shared lemmas about the embedded operations -/

theorem cleanup_eq_map (delete : String → DeleteResult) :
    ∀ nodes : List NodeInfo,
      cleanup_debug_pods delete nodes = nodes.map (fun n => debugPodName n.name)
  | [] => rfl
  | node :: rest => by
    simp only [cleanup_debug_pods, List.map_cons, cleanup_eq_map delete rest]

theorem dictInsert_not_mem (key : String) (val : NodeGPUStatus) :
    ∀ acc : List (String × NodeGPUStatus), key ∉ acc.map Prod.fst →
      dictInsert key val acc = acc ++ [(key, val)]
  | [], _ => rfl
  | (k, v) :: rest, h => by
    simp only [List.map_cons, List.mem_cons, not_or] at h
    have hk : ¬ k = key := fun hkk => h.1 hkk.symm
    simp only [dictInsert, if_neg hk, List.cons_append]
    rw [dictInsert_not_mem key val rest h.2]

theorem collectFold_eq (worker : NodeInfo → Except String NodeGPUStatus)
    (order : List NodeInfo) :
    ∀ acc : List (String × NodeGPUStatus),
      (order.map NodeInfo.name).Nodup →
      (∀ n ∈ order, n.name ∉ acc.map Prod.fst) →
      order.foldl (fun results node => dictInsert node.name (collectOutcome worker node) results) acc
        = acc ++ order.map (fun n => (n.name, collectOutcome worker n)) := by
  induction order with
  | nil => intro acc _ _; simp
  | cons node rest ih =>
    intro acc hnd hfresh
    simp only [List.map_cons, List.nodup_cons] at hnd
    simp only [List.foldl_cons]
    rw [dictInsert_not_mem _ _ acc (hfresh node (List.mem_cons_self _ _))]
    have hfresh2 : ∀ m ∈ rest, m.name ∉ (acc ++ [(node.name, collectOutcome worker node)]).map Prod.fst := by
      intro m hm
      simp only [List.map_append, List.map_cons, List.map_nil, List.mem_append,
        List.mem_singleton, not_or]
      refine ⟨hfresh m (List.mem_cons_of_mem _ hm), ?_⟩
      intro heq
      exact hnd.1 (heq ▸ List.mem_map_of_mem NodeInfo.name hm)
    rw [ih (acc ++ [(node.name, collectOutcome worker node)]) hnd.2 hfresh2]
    simp

theorem collectResults_eq_map (worker : NodeInfo → Except String NodeGPUStatus)
    (order : List NodeInfo) (hnd : (order.map NodeInfo.name).Nodup) :
    collectResults worker order = order.map (fun n => (n.name, collectOutcome worker n)) := by
  have h := collectFold_eq worker order [] hnd (by intro n _; simp)
  simpa [collectResults] using h

theorem filter_name_nil (g : NodeInfo → NodeGPUStatus) (a : String) :
    ∀ order : List NodeInfo, a ∉ order.map NodeInfo.name →
      (order.map (fun m => (m.name, g m))).filter (fun p => p.1 == a) = []
  | [], _ => rfl
  | m :: rest, h => by
    simp only [List.map_cons, List.mem_cons, not_or] at h
    have hm : (m.name == a) = false := by
      simp only [beq_eq_false_iff_ne, ne_eq]
      exact fun heq => h.1 heq.symm
    simp only [List.map_cons, List.filter_cons, hm]
    exact filter_name_nil g a rest h.2

theorem filter_name_singleton (g : NodeInfo → NodeGPUStatus) :
    ∀ (order : List NodeInfo) (n : NodeInfo),
      (order.map NodeInfo.name).Nodup → n ∈ order →
      (order.map (fun m => (m.name, g m))).filter (fun p => p.1 == n.name)
        = [(n.name, g n)]
  | [], n, _, hmem => absurd hmem (List.not_mem_nil n)
  | m :: rest, n, hnd, hmem => by
    simp only [List.map_cons, List.nodup_cons] at hnd
    rcases List.mem_cons.mp hmem with heq | hrest
    · subst heq
      simp only [List.map_cons, List.filter_cons, beq_self_eq_true, if_pos]
      rw [filter_name_nil g n.name rest hnd.1]
    · have hne : (m.name == n.name) = false := by
        simp only [beq_eq_false_iff_ne, ne_eq]
        intro heq
        exact hnd.1 (heq ▸ List.mem_map_of_mem NodeInfo.name hrest)
      simp only [List.map_cons, List.filter_cons, hne]
      exact filter_name_singleton g rest n hnd.2 hrest

theorem deployWaitAux_never (ready : Nat → Bool) (h : ∀ t, ready t = false) :
    ∀ (fuel attempt elapsed : Nat),
      deployWaitAux ready fuel attempt elapsed = (none, elapsed + fuel)
  | 0, _, elapsed => rfl
  | fuel + 1, attempt, elapsed => by
    simp only [deployWaitAux, h attempt, Bool.false_eq_true, if_false]
    rw [deployWaitAux_never ready h fuel (attempt + 1) (elapsed + 1)]
    congr 1
    omega

theorem deployWaitAux_none_elapsed (ready : Nat → Bool) :
    ∀ (fuel attempt elapsed : Nat),
      (deployWaitAux ready fuel attempt elapsed).1 = none →
      (deployWaitAux ready fuel attempt elapsed).2 = elapsed + fuel
  | 0, _, elapsed, _ => by simp [deployWaitAux]
  | fuel + 1, attempt, elapsed, h => by
    by_cases hr : ready attempt
    · simp [deployWaitAux, hr] at h
    · simp only [deployWaitAux, hr, Bool.false_eq_true, if_false] at h ⊢
      rw [deployWaitAux_none_elapsed ready fuel (attempt + 1) (elapsed + 1) h]
      omega

theorem pySplitOnce_length (sep : Char) (l : List Char) (h : sep ∈ l) :
    (pySplitOnce sep l).length = 2 := by
  unfold pySplitOnce
  cases hr : l.dropWhile (fun c => c != sep) with
  | nil =>
    exfalso
    rw [List.dropWhile_eq_nil_iff] at hr
    have := hr sep h
    simp at this
  | cons a post => simp

theorem eq_mem_of_lineMatch (line : List Char) (h : binaryNameLineMatch line = true) :
    '=' ∈ line := by
  have h2 : pyIn "=".data line = true := by
    simp only [binaryNameLineMatch, Bool.and_eq_true] at h
    exact h.2
  simp only [pyIn, decide_eq_true_eq] at h2
  exact h2.subset (by simp)

theorem extractLoop_eq_find :
    ∀ (lines : List (List Char)) (line : List Char),
      lines.find? binaryNameLineMatch = some line →
      extractLoop lines = String.mk (stripValue ((pySplitOnce '=' line).getD 1 []))
  | [], line, h => by simp at h
  | l :: rest, line, h => by
    by_cases hm : binaryNameLineMatch l
    · rw [List.find?_cons_of_pos rest hm] at h
      injection h with h
      subst h
      have hlen : (pySplitOnce '=' l).length = 2 :=
        pySplitOnce_length '=' l (eq_mem_of_lineMatch l hm)
      simp [extractLoop, hm, hlen]
    · rw [List.find?_cons_of_neg rest hm] at h
      simp only [extractLoop, hm, Bool.false_eq_true, if_false]
      exact extractLoop_eq_find rest line h

theorem issueStep_eq (acc : List String) (entry : String × NodeGPUStatus) :
    issueStep acc entry = acc ++ nodeIssues entry.1 entry.2 := by
  unfold issueStep nodeIssues
  by_cases h : entry.2.execution_error.isSome
  · simp [h]
  · by_cases h2 : (entry.2.containerd_configs.filter (fun c => c.«exists»)).any
        (fun c => c.nvidia_runtime_configured)
    · simp [h, h2]
    · simp [h, h2, List.append_assoc]

theorem foldl_issueStep :
    ∀ (results : List (String × NodeGPUStatus)) (acc : List String),
      results.foldl issueStep acc = acc ++ results.flatMap (fun e => nodeIssues e.1 e.2)
  | [], acc => by simp
  | entry :: rest, acc => by
    simp only [List.foldl_cons, List.flatMap_cons]
    rw [foldl_issueStep rest (issueStep acc entry), issueStep_eq, List.append_assoc]

/-! ## Concrete sample inputs used by witnesses and counterexamples -/

def sampleNodeA : NodeInfo :=
  { name := "node-a.example", roles := ["worker"], status := "Ready",
    gpu_pods := 1, has_gpu_resources := true }

def sampleNodeB : NodeInfo :=
  { name := "node-b.example", roles := ["control-plane"], status := "Ready",
    gpu_pods := 0, has_gpu_resources := false }

def sampleWorker : NodeInfo → Except String NodeGPUStatus := fun node =>
  if node.name = "node-a.example" then Except.error "provisioning failed"
  else Except.ok { node_name := node.name, containerd_configs := [], debug_pod_deployed := true }

def sampleDelete : String → DeleteResult := fun _ => DeleteResult.ok

def notFoundDelete : String → DeleteResult := fun _ => DeleteResult.notFound

def neverReady : Nat → Bool := fun _ => false

def neverReadyEnv : DeployEnv :=
  { podExists := false, createOk := true, createErr := "",
    ready := neverReady, describeOut := "pod describe output" }

def existingPodEnv : DeployEnv :=
  { podExists := true, createOk := true, createErr := "",
    ready := neverReady, describeOut := "" }

def c8Sample : String :=
  "# containerd config\nBinaryName = \"/usr/bin/foo\"\nBinaryName = \"/other\""

def cfgNoConfig (node : String) : ContainerdConfig :=
  { node_name := node, config_path := "/host/etc/containerd/config.toml",
    «exists» := false, nvidia_runtime_configured := false, config_content := "" }

def cfgConfiguredMissing (node : String) : ContainerdConfig :=
  { node_name := node, config_path := "/host/etc/containerd/config.toml",
    «exists» := true, nvidia_runtime_configured := true, config_content := "nvidia runc",
    binary_name := "/usr/local/nvidia/toolkit/nvidia-container-runtime",
    binary_exists := false }

def cfgConfiguredPresent (node : String) : ContainerdConfig :=
  { node_name := node, config_path := "/host/etc/containerd/config.toml",
    «exists» := true, nvidia_runtime_configured := true, config_content := "nvidia runc",
    binary_name := "/usr/local/nvidia/toolkit/nvidia-container-runtime",
    binary_exists := true }

def stErr (node : String) : NodeGPUStatus :=
  { node_name := node, containerd_configs := [],
    execution_error := some "Analysis exception: boom" }

def stUnconfigured (node : String) : NodeGPUStatus :=
  { node_name := node, containerd_configs := [cfgNoConfig node], debug_pod_deployed := true }

def stMissingBinary (node : String) : NodeGPUStatus :=
  { node_name := node, containerd_configs := [cfgConfiguredMissing node],
    debug_pod_deployed := true }

def stConfiguredOk (node : String) : NodeGPUStatus :=
  { node_name := node, containerd_configs := [cfgConfiguredPresent node],
    debug_pod_deployed := true }

def c5CounterResults : List (String × NodeGPUStatus) :=
  [("node-err", stErr "node-err"),
   ("node-c", stUnconfigured "node-c"),
   ("node-b", stMissingBinary "node-b")]

def c5Scenario : List (String × NodeGPUStatus) :=
  [("node-a", stConfiguredOk "node-a"),
   ("node-b", stMissingBinary "node-b"),
   ("node-c", stUnconfigured "node-c")]

/-! ## Claim theorems -/

/-- Claim C1: the orchestrator's result mapping holds exactly one outcome per
discovered node, keyed by the node's name; a worker whose future raises is
still recorded (with an execution error), and every node's entry is determined
by that node's own worker outcome alone, so the mapping has exactly N entries
for N discovered nodes (node names in a cluster are distinct, the `hnames`
hypothesis). -/
theorem C1_exactly_one_outcome_per_node
    (delete : String → DeleteResult) (cleanupFlag : Bool)
    (worker : NodeInfo → Except String NodeGPUStatus) (nodes order : List NodeInfo)
    (hperm : order.Perm nodes) (hnames : (nodes.map NodeInfo.name).Nodup) :
    ∃ res, (analyze_cluster delete cleanupFlag nodes worker order none).1 = Except.ok res ∧
      res.length = nodes.length ∧
      (∀ n ∈ nodes, res.filter (fun p => p.1 == n.name) = [(n.name, collectOutcome worker n)]) ∧
      (∀ n ∈ nodes, ∀ e, worker n = Except.error e →
        res.filter (fun p => p.1 == n.name) = [(n.name, errorOutcome n.name e)]) := by
  cases nodes with
  | nil =>
    refine ⟨[], rfl, rfl, ?_, ?_⟩
    · intro n hn; exact absurd hn (List.not_mem_nil n)
    · intro n hn; exact absurd hn (List.not_mem_nil n)
  | cons head tail =>
    have hordnames : (order.map NodeInfo.name).Nodup :=
      (hperm.map NodeInfo.name).symm.nodup hnames
    refine ⟨collectResults worker order, ?_, ?_, ?_, ?_⟩
    · simp [analyze_cluster]
    · rw [collectResults_eq_map worker order hordnames]
      simp [hperm.length_eq]
    · intro n hn
      rw [collectResults_eq_map worker order hordnames]
      exact filter_name_singleton (collectOutcome worker) order n hordnames (hperm.mem_iff.mpr hn)
    · intro n hn e he
      rw [collectResults_eq_map worker order hordnames]
      rw [filter_name_singleton (collectOutcome worker) order n hordnames (hperm.mem_iff.mpr hn)]
      simp [collectOutcome, he]

/-- Witness for C1 at a concrete two-node cluster where one worker fails. -/
theorem C1_exactly_one_outcome_per_node_witness :
    ([sampleNodeB, sampleNodeA] : List NodeInfo).Perm [sampleNodeA, sampleNodeB] ∧
    (([sampleNodeA, sampleNodeB].map NodeInfo.name).Nodup) ∧
    (∃ res, (analyze_cluster sampleDelete true [sampleNodeA, sampleNodeB] sampleWorker
        [sampleNodeB, sampleNodeA] none).1 = Except.ok res ∧
      res.length = ([sampleNodeA, sampleNodeB] : List NodeInfo).length ∧
      (∀ n ∈ ([sampleNodeA, sampleNodeB] : List NodeInfo),
        res.filter (fun p => p.1 == n.name) = [(n.name, collectOutcome sampleWorker n)]) ∧
      (∀ n ∈ ([sampleNodeA, sampleNodeB] : List NodeInfo), ∀ e,
        sampleWorker n = Except.error e →
        res.filter (fun p => p.1 == n.name) = [(n.name, errorOutcome n.name e)])) :=
  ⟨by decide, by decide,
    C1_exactly_one_outcome_per_node sampleDelete true sampleWorker
      [sampleNodeA, sampleNodeB] [sampleNodeB, sampleNodeA] (by decide) (by decide)⟩

/-- Claim C2: the per-node worker always returns a NodeGPUStatus (it is a total
function of the sub-call outcomes): on provisioning failure it returns an
outcome with the error field set, an empty config list and no further steps
(the steps outcome is not consulted), and an exception during steps 2-3 is
converted into an error field rather than propagated. -/
theorem C2_worker_always_returns
    (node : NodeInfo) :
    (∀ (err : String) (steps : Except String (List ContainerdConfig × String)),
      analyze_single_node node (false, err) steps =
        { node_name := node.name, containerd_configs := [], gpu_failure_symptoms := none,
          debug_pod_deployed := false, execution_error := some err }) ∧
    (∀ (err : String) (steps steps2 : Except String (List ContainerdConfig × String)),
      analyze_single_node node (false, err) steps = analyze_single_node node (false, err) steps2) ∧
    (∀ (pod_name e : String),
      analyze_single_node node (true, pod_name) (Except.error e) =
        { node_name := node.name, containerd_configs := [], gpu_failure_symptoms := none,
          debug_pod_deployed := true, execution_error := some ("Analysis failed: " ++ e) }) ∧
    (∀ (pod_name : String) (configs : List ContainerdConfig) (symptoms : String),
      analyze_single_node node (true, pod_name) (Except.ok (configs, symptoms)) =
        { node_name := node.name, containerd_configs := configs,
          gpu_failure_symptoms := some symptoms,
          debug_pod_deployed := true, execution_error := none }) := by
  refine ⟨?_, ?_, ?_, ?_⟩ <;> intros <;> rfl

/-- Claim C4 counterexample: a text containing the markers as 'Nvidia' and
'RunC' is reported configured by the remote-node path but NOT by the
local-node path, whose test is case-sensitive (line 372 has no lower()). -/
theorem C4_counterexample :
    nvidia_runtime_configured_remote "Nvidia RunC" = true ∧
    nvidia_configured_local "Nvidia RunC" = false := by
  decide

/-- Claim C4 (amended): the remote-node inspection path reports configured iff
the lowercased text contains both markers (case-insensitive), while the
local-node inspection path reports configured iff the raw text contains both
markers as exact lowercase substrings (case-sensitive). -/
theorem C4_amended_marker_test (config_content : String) :
    (nvidia_runtime_configured_remote config_content = true ↔
      ("nvidia".data <:+: pyLower config_content.data ∧
       "runc".data <:+: pyLower config_content.data)) ∧
    (nvidia_configured_local config_content = true ↔
      ("nvidia".data <:+: config_content.data ∧
       "runc".data <:+: config_content.data)) := by
  constructor <;>
    simp [nvidia_runtime_configured_remote, nvidia_configured_local, pyIn]

/-- Claim C3: when the cleanup flag is set, the finally-clause sweep of
`analyze_cluster` targets every discovered node's derived pod identity, no
matter how the pool block ended (normal completion or an escaping exception)
and no matter what each deletion returns (errors are tolerated); when the
caller opts out, no sweep runs. -/
theorem C3_guaranteed_cleanup_sweep (delete : String → DeleteResult)
    (nodes : List NodeInfo) (worker : NodeInfo → Except String NodeGPUStatus)
    (order : List NodeInfo) (poolAbort : Option String) :
    (∀ n ∈ nodes, debugPodName n.name
      ∈ (analyze_cluster delete true nodes worker order poolAbort).2) ∧
    ((analyze_cluster delete false nodes worker order poolAbort).2 = []) ∧
    (∀ delete2 : String → DeleteResult,
      (analyze_cluster delete true nodes worker order poolAbort).2
        = (analyze_cluster delete2 true nodes worker order poolAbort).2) := by
  refine ⟨?_, ?_, ?_⟩
  · intro n hn
    have hne : nodes.isEmpty = false := by
      cases nodes
      · exact absurd hn (List.not_mem_nil n)
      · rfl
    simp [analyze_cluster, hne, cleanup_eq_map]
    exact ⟨n, hn, rfl⟩
  · cases hempty : nodes.isEmpty <;> simp [analyze_cluster, hempty]
  · intro delete2
    cases hempty : nodes.isEmpty <;> simp [analyze_cluster, hempty, cleanup_eq_map]

/-- Witness for C3: the sweep covers the node's pod even when the pool was
aborted by an exception before collecting results. -/
theorem C3_guaranteed_cleanup_sweep_witness :
    sampleNodeA ∈ [sampleNodeA] ∧
    debugPodName sampleNodeA.name
      ∈ (analyze_cluster sampleDelete true [sampleNodeA] sampleWorker [sampleNodeA]
          (some "KeyboardInterrupt")).2 :=
  ⟨List.mem_singleton_self sampleNodeA,
    (C3_guaranteed_cleanup_sweep sampleDelete [sampleNodeA] sampleWorker [sampleNodeA]
      (some "KeyboardInterrupt")).1 sampleNodeA (List.mem_singleton_self sampleNodeA)⟩

/-- Claim C5 counterexample: with an execution-error node first, an
unconfigured node second and a missing-binary node third, the aggregate issue
list is [unconfigured, missing-binary] — the missing-binary issue does NOT
come first, and the error node contributes no issue at all, refuting the
claimed fixed priority ordering. -/
theorem C5_counterexample :
    get_runtime_config_issues c5CounterResults
      = [unconfiguredMsg "node-c",
         missingBinaryMsg "node-b" "/usr/local/nvidia/toolkit/nvidia-container-runtime"] ∧
    get_runtime_config_issues c5CounterResults
      ≠ [missingBinaryMsg "node-b" "/usr/local/nvidia/toolkit/nvidia-container-runtime",
         unconfiguredMsg "node-c"] := by
  constructor
  · decide
  · decide

/-- Claim C5 (amended): issues are emitted in result-mapping iteration order,
grouped per node: each non-error node contributes its unconfigured issue (when
no existing record is configured) followed by its missing-binary issues; nodes
with execution errors contribute nothing; release-configuration issues are not
part of this list. In the spec's scenario iterated in order A (configured,
binary present), B (configured, binary missing), C (no config), the list is
[missing-binary B, unconfigured C] and A appears in no bucket. -/
theorem C5_amended_issue_order (results : List (String × NodeGPUStatus)) :
    get_runtime_config_issues results = results.flatMap (fun e => nodeIssues e.1 e.2) ∧
    (∀ (node_name : String) (r : NodeGPUStatus),
      r.execution_error.isSome = true → nodeIssues node_name r = []) ∧
    get_runtime_config_issues c5Scenario
      = [missingBinaryMsg "node-b" "/usr/local/nvidia/toolkit/nvidia-container-runtime",
         unconfiguredMsg "node-c"] := by
  refine ⟨?_, ?_, ?_⟩
  · have h := foldl_issueStep results []
    simpa [get_runtime_config_issues] using h
  · intro node_name r h
    simp [nodeIssues, h]
  · decide

/-- Witness for C5 (amended) at the concrete error-node sample. -/
theorem C5_amended_issue_order_witness :
    (stErr "node-err").execution_error.isSome = true ∧
    nodeIssues "node-err" (stErr "node-err") = [] :=
  ⟨rfl, (C5_amended_issue_order []).2.1 "node-err" (stErr "node-err") rfl⟩

/-- Claim C6: the readiness wait polls once per time unit; on an agent that
never becomes ready it returns failure after exactly the timeout number of
intervals (60 by default in `deploy_debug_pod`) — never earlier and never
unboundedly — and the provisioning failure message carries the descriptive
diagnostic text (the last 500 characters of the describe output). -/
theorem C6_readiness_timeout (ready : Nat → Bool) (timeout : Nat)
    (env : DeployEnv) (node_name : String) :
    ((∀ t, ready t = false) → deployWait ready timeout = (none, timeout)) ∧
    ((deployWait ready timeout).1 = none → (deployWait ready timeout).2 = timeout) ∧
    (∀ d : String, (pyTakeLast 500 d).data <:+ (waitFailMsg d).data) ∧
    (env.podExists = false → env.createOk = true → (∀ t, env.ready t = false) →
      deploy_debug_pod env node_name = ((false, waitFailMsg env.describeOut), true)) := by
  refine ⟨?_, ?_, ?_, ?_⟩
  · intro h
    have hx := deployWaitAux_never ready h timeout 0 0
    simpa [deployWait] using hx
  · intro h
    have hx := deployWaitAux_none_elapsed ready timeout 0 0 h
    simpa [deployWait] using hx
  · intro d
    rw [waitFailMsg, String.data_append]
    exact List.suffix_append _ _
  · intro hp hc hr
    have hw : deployWait env.ready 60 = (none, 60) := by
      have hx := deployWaitAux_never env.ready hr 60 0 0
      simpa [deployWait] using hx
    simp [deploy_debug_pod, hp, hc, hw]

/-- Witness for C6: a never-ready agent makes the wait fail at exactly 60
intervals, and the deploy call returns the provisioning failure message built
from the describe output. -/
theorem C6_readiness_timeout_witness :
    deployWait neverReady 60 = (none, 60) ∧
    deploy_debug_pod neverReadyEnv "node-a.example"
      = ((false, waitFailMsg "pod describe output"), true) :=
  ⟨(C6_readiness_timeout neverReady 60 neverReadyEnv "node-a.example").1 (fun _ => rfl),
   (C6_readiness_timeout neverReady 60 neverReadyEnv "node-a.example").2.2.2
     rfl rfl (fun _ => rfl)⟩

/-- Claim C7 counterexample: a failed node listing and a successful listing of
zero nodes produce identical runs — both return the successful empty mapping
with no sweep — so a discovery failure is NOT surfaced as a run-level failure
distinguishable from the zero-nodes case. -/
theorem C7_counterexample :
    analyze_cluster sampleDelete true (get_cluster_nodes (Except.error "connection refused"))
        sampleWorker [] none
      = (Except.ok [], []) ∧
    analyze_cluster sampleDelete true (get_cluster_nodes (Except.ok []))
        sampleWorker [] none
      = (Except.ok [], []) :=
  ⟨rfl, rfl⟩

/-- Claim C7 (amended): zero discovered nodes yield an empty mapping rather
than an error, but a discovery failure is caught inside `get_cluster_nodes`
(which logs and returns an empty node list), so it also yields the empty
mapping — no run-level failure is surfaced and the two cases are not
distinguishable from the returned value. -/
theorem C7_amended_discovery (e : String) (delete : String → DeleteResult)
    (cleanupFlag : Bool) (worker : NodeInfo → Except String NodeGPUStatus)
    (order : List NodeInfo) (poolAbort : Option String) :
    get_cluster_nodes (Except.error e) = [] ∧
    (∀ nodes : List NodeInfo, get_cluster_nodes (Except.ok nodes) = nodes) ∧
    analyze_cluster delete cleanupFlag (get_cluster_nodes (Except.error e)) worker order poolAbort
      = (Except.ok [], []) ∧
    analyze_cluster delete cleanupFlag ([] : List NodeInfo) worker order poolAbort
      = (Except.ok [], []) :=
  ⟨rfl, fun _ => rfl, rfl, rfl⟩

/-- Claim C8: for a configuration text with at least one line containing
'BinaryName' and '=', the extracted binary name is the right-hand side of the
FIRST such line, stripped of surrounding whitespace and surrounding single or
double quotes (the source's strip chain); later matching lines are ignored. -/
theorem C8_extract_first_assignment (config_content : String) (line : List Char)
    (h : (splitOnChar (Char.ofNat 10) config_content.data).find? binaryNameLineMatch
      = some line) :
    extract_binary_name config_content
      = String.mk (stripValue ((pySplitOnce '=' line).getD 1 [])) :=
  extractLoop_eq_find (splitOnChar (Char.ofNat 10) config_content.data) line h

/-- Witness for C8: the spec's example line yields /usr/bin/foo and the later
matching line is ignored. -/
theorem C8_extract_first_assignment_witness :
    (splitOnChar (Char.ofNat 10) c8Sample.data).find? binaryNameLineMatch
      = some ("BinaryName = \"/usr/bin/foo\"").data ∧
    extract_binary_name c8Sample = "/usr/bin/foo" :=
  ⟨by decide,
    (C8_extract_first_assignment c8Sample ("BinaryName = \"/usr/bin/foo\"").data
      (by decide)).trans (by decide)⟩

/-- Claim C9: provisioning is idempotent — when a pod with the derived
identity already exists, `deploy_debug_pod` immediately succeeds with that
identity and never invokes creation — and teardown is idempotent: the sweep's
behaviour is independent of what each deletion returns (a second sweep that
finds nothing behaves identically and never errors). -/
theorem C9_provision_teardown_idempotent :
    (∀ (env : DeployEnv) (node_name : String), env.podExists = true →
      deploy_debug_pod env node_name = ((true, debugPodName node_name), false)) ∧
    (∀ (delete1 delete2 : String → DeleteResult) (nodes : List NodeInfo),
      cleanup_debug_pods delete1 nodes = cleanup_debug_pods delete2 nodes) := by
  constructor
  · intro env node_name h
    simp [deploy_debug_pod, h]
  · intro delete1 delete2 nodes
    rw [cleanup_eq_map, cleanup_eq_map]

/-- Witness for C9: re-entrant provision on an existing pod, and a second
sweep where every deletion reports not-found. -/
theorem C9_provision_teardown_idempotent_witness :
    existingPodEnv.podExists = true ∧
    deploy_debug_pod existingPodEnv "node-a.example"
      = ((true, debugPodName "node-a.example"), false) ∧
    cleanup_debug_pods sampleDelete [sampleNodeA]
      = cleanup_debug_pods notFoundDelete [sampleNodeA] :=
  ⟨rfl,
    C9_provision_teardown_idempotent.1 existingPodEnv "node-a.example" rfl,
    C9_provision_teardown_idempotent.2 sampleDelete notFoundDelete [sampleNodeA]⟩

/-- Claim C10: the inspection workload's identity is a pure function of the
node name — 'gpu-debug-' followed by the name with '.' replaced by '-' — and
the same derivation is used by the pod spec, by deployment (any successful
deploy returns exactly that name) and by the cleanup sweep (which targets
exactly the derived names of the discovered nodes). -/
theorem C10_pod_identity :
    (∀ node_name : String,
      debugPodName node_name
        = "gpu-debug-" ++ String.mk (node_name.data.map (fun c => if c = '.' then '-' else c))) ∧
    (∀ namespc node_name : String,
      (create_debug_pod_spec namespc node_name).metadata_name = debugPodName node_name) ∧
    (∀ (env : DeployEnv) (node_name : String),
      (deploy_debug_pod env node_name).1.1 = true →
      (deploy_debug_pod env node_name).1.2 = debugPodName node_name) ∧
    (∀ (delete : String → DeleteResult) (nodes : List NodeInfo),
      cleanup_debug_pods delete nodes = nodes.map (fun n => debugPodName n.name)) := by
  refine ⟨?_, ?_, ?_, ?_⟩
  · intro node_name; rfl
  · intro namespc node_name; rfl
  · intro env node_name h
    cases hp : env.podExists with
    | true => simp [deploy_debug_pod, hp]
    | false =>
      cases hc : env.createOk with
      | false => simp [deploy_debug_pod, hp, hc] at h
      | true =>
        rcases hw : deployWait env.ready 60 with ⟨o, el⟩
        cases o with
        | some a => simp [deploy_debug_pod, hp, hc, hw]
        | none => simp [deploy_debug_pod, hp, hc, hw] at h
  · intro delete nodes
    rw [cleanup_eq_map]

/-- Witness for C10: a successful deploy on an existing pod returns the
derived identity, and the derivation replaces dots with dashes. -/
theorem C10_pod_identity_witness :
    (deploy_debug_pod existingPodEnv "node-a.example").1.1 = true ∧
    (deploy_debug_pod existingPodEnv "node-a.example").1.2 = debugPodName "node-a.example" ∧
    debugPodName "node-a.example" = "gpu-debug-node-a-example" :=
  ⟨rfl,
    C10_pod_identity.2.2.1 existingPodEnv "node-a.example" rfl,
    by decide⟩
